import Mathlib

/-!
Shallow embedding of src/internal/apiClient/client.go (package apiClient),
the Scylla Cloud REST API client: the authenticated request executor (Get),
the JSON decoding pipeline (encoding/json with UseNumber), the identity
bootstrapper (NewClient / findAccountId) and the resource accessors
(ListCloudProviders, ListCloudProviderRegions, ListClusters).

The HTTP transport is external to the repository; it is modelled as a
function from an http.Client configuration and a request to a result
(either a transport-level failure or a status code plus a fully read body).
Request-construction failures (http.NewRequest), send failures (Do) and
body-read failures (ioutil.ReadAll) are all returned verbatim by the Go
code, so they are folded into the single transport-failure case.

JSON values decoded with UseNumber keep numbers as their literal text
(json.Number), which the embedding mirrors by storing the literal string
in the number constructor.
-/

/-- A JSON value as produced by the encoding/json scanner under UseNumber:
numbers keep their literal decimal text. -/
inductive Json where
  | null : Json
  | bool (b : Bool) : Json
  | num (lit : String) : Json
  | str (s : String) : Json
  | arr (elems : List Json) : Json
  | obj (fields : List (String × Json)) : Json
deriving Inhabited

/-- Digit value of a decimal digit character. -/
def digitVal (c : Char) : Nat := c.toNat - 48

/-- Value of a list of decimal digit characters, most significant first. -/
def parseNatDigits (cs : List Char) : Nat :=
  cs.foldl (fun acc c => 10 * acc + digitVal c) 0

/-- strconv.ParseInt with base 10 restricted to the literals the JSON
grammar can produce for integers: an optional leading minus sign followed
by one or more decimal digits. -/
def parseIntLit (s : String) : Option Int :=
  match s.data with
  | [] => none
  | c :: cs =>
      if c = '-' then
        if cs ≠ [] ∧ cs.all Char.isDigit then some (-(parseNatDigits cs : Int)) else none
      else
        if (c :: cs).all Char.isDigit then some ((parseNatDigits (c :: cs) : Int)) else none

/-- The decimal digit character for a digit below ten. -/
def digitChar (d : Nat) : Char :=
  match d with
  | 0 => '0'
  | 1 => '1'
  | 2 => '2'
  | 3 => '3'
  | 4 => '4'
  | 5 => '5'
  | 6 => '6'
  | 7 => '7'
  | 8 => '8'
  | _ => '9'

/-- Decimal digits of a natural number, least significant first; empty for 0.
The fuel argument bounds the recursion and any fuel above the number works. -/
def natDigitsRev : Nat → Nat → List Char
  | 0, _ => []
  | fuel + 1, n => if n = 0 then [] else digitChar (n % 10) :: natDigitsRev fuel (n / 10)

/-- Decimal rendering of a natural number (the digits strconv.FormatInt and
the fmt %d verb print). -/
def natLit (n : Nat) : String :=
  if n = 0 then "0" else String.mk (natDigitsRev (n + 1) n).reverse

/-- Decimal rendering of an integer, as the fmt %d verb prints an int64. -/
def intLit (n : Int) : String :=
  if n < 0 then "-" ++ natLit n.natAbs else natLit n.toNat

/-- JSON insignificant whitespace skipping. -/
def skipWs : List Char → List Char
  | [] => []
  | c :: cs => if c = ' ' ∨ c = '\t' ∨ c = '\n' ∨ c = '\r' then skipWs cs else c :: cs

/-- Longest leading run of decimal digits, together with the rest. -/
def takeDigits : List Char → List Char × List Char
  | [] => ([], [])
  | c :: cs =>
      if c.isDigit then
        let p := takeDigits cs
        (c :: p.1, p.2)
      else ([], c :: cs)

/-- At least one decimal digit, per the JSON number grammar. -/
def requireDigits (cs : List Char) : Except String (List Char × List Char) :=
  let p := takeDigits cs
  if p.1.isEmpty then .error "invalid number syntax" else .ok p

/-- Integer part of a JSON number: a lone zero or a nonzero-led digit run. -/
def parseIntPart : List Char → Except String (List Char × List Char)
  | [] => .error "unexpected end of JSON input"
  | '0' :: rest => .ok ([ '0' ], rest)
  | c :: cs =>
      if c.isDigit then .ok (takeDigits (c :: cs)) else .error "invalid character looking for beginning of value"

/-- Optional fraction part of a JSON number. -/
def parseFracPart : List Char → Except String (List Char × List Char)
  | '.' :: rest =>
      (requireDigits rest).map (fun p => ('.' :: p.1, p.2))
  | cs => .ok ([], cs)

/-- Exponent tail after the e or E marker. -/
def parseExpTail (e : Char) : List Char → Except String (List Char × List Char)
  | '+' :: rest => (requireDigits rest).map (fun p => (e :: '+' :: p.1, p.2))
  | '-' :: rest => (requireDigits rest).map (fun p => (e :: '-' :: p.1, p.2))
  | cs => (requireDigits cs).map (fun p => (e :: p.1, p.2))

/-- Optional exponent part of a JSON number. -/
def parseExpPart : List Char → Except String (List Char × List Char)
  | 'e' :: rest => parseExpTail 'e' rest
  | 'E' :: rest => parseExpTail 'E' rest
  | cs => .ok ([], cs)

/-- Unsigned JSON number body: integer, fraction and exponent parts. -/
def parseNumberBody (cs : List Char) : Except String (List Char × List Char) := do
  let ip ← parseIntPart cs
  let fp ← parseFracPart ip.2
  let ep ← parseExpPart fp.2
  .ok (ip.1 ++ fp.1 ++ ep.1, ep.2)

/-- A JSON number value, keeping the literal text as UseNumber does. -/
def parseNumber : List Char → Except String (Json × List Char)
  | '-' :: rest => (parseNumberBody rest).map (fun p => (Json.num (String.mk ('-' :: p.1)), p.2))
  | cs => (parseNumberBody cs).map (fun p => (Json.num (String.mk p.1), p.2))

/-- Single-character string escapes of the JSON grammar. -/
def escapeChar : Char → Option Char
  | '"' => some '"'
  | '\\' => some '\\'
  | '/' => some '/'
  | 'b' => some (Char.ofNat 8)
  | 'f' => some (Char.ofNat 12)
  | 'n' => some '\n'
  | 'r' => some (Char.ofNat 13)
  | 't' => some '\t'
  | _ => none

/-- Value of a hexadecimal digit character. -/
def hexVal (c : Char) : Option Nat :=
  if c.isDigit then some (c.toNat - 48)
  else if 'a' ≤ c ∧ c ≤ 'f' then some (c.toNat - 87)
  else if 'A' ≤ c ∧ c ≤ 'F' then some (c.toNat - 55)
  else none

/-- Body of a JSON string literal after the opening quote, up to and
including the closing quote. Unicode escapes outside the surrogate range
become the named scalar; surrogate halves become U+FFFD (the Go scanner
additionally pairs adjacent surrogate escapes, which no input in scope
uses). Raw control characters are rejected as in the Go scanner. -/
def parseStringBody : List Char → Except String (List Char × List Char)
  | [] => .error "unexpected end of string literal"
  | '"' :: rest => .ok ([], rest)
  | '\\' :: 'u' :: h1 :: h2 :: h3 :: h4 :: rest =>
      match hexVal h1, hexVal h2, hexVal h3, hexVal h4 with
      | some a, some b, some c, some d =>
          let n := ((a * 16 + b) * 16 + c) * 16 + d
          let ch := if n < 55296 ∨ 57343 < n then Char.ofNat n else Char.ofNat 65533
          (parseStringBody rest).map (fun p => (ch :: p.1, p.2))
      | _, _, _, _ => .error "invalid hexadecimal escape"
  | '\\' :: e :: rest =>
      match escapeChar e with
      | some ch => (parseStringBody rest).map (fun p => (ch :: p.1, p.2))
      | none => .error "invalid escape character"
  | c :: rest =>
      if c.toNat < 32 then .error "control character in string literal"
      else (parseStringBody rest).map (fun p => (c :: p.1, p.2))

mutual

/-- One JSON value, as json.Decoder.Decode reads it: leading whitespace is
skipped and anything after the value is left unconsumed. The fuel bounds
the mutual recursion; parseJson supplies enough for its input. -/
def parseValue : Nat → List Char → Except String (Json × List Char)
  | 0, _ => .error "value nesting exceeds parser fuel"
  | fuel + 1, cs =>
      match skipWs cs with
      | [] => .error "unexpected end of JSON input"
      | 'n' :: 'u' :: 'l' :: 'l' :: rest => .ok (Json.null, rest)
      | 't' :: 'r' :: 'u' :: 'e' :: rest => .ok (Json.bool true, rest)
      | 'f' :: 'a' :: 'l' :: 's' :: 'e' :: rest => .ok (Json.bool false, rest)
      | '"' :: rest => (parseStringBody rest).map (fun p => (Json.str (String.mk p.1), p.2))
      | '[' :: rest =>
          (match skipWs rest with
           | ']' :: r2 => .ok (Json.arr [], r2)
           | r2 => (parseElems fuel r2).map (fun p => (Json.arr p.1, p.2)))
      | '{' :: rest =>
          (match skipWs rest with
           | '}' :: r2 => .ok (Json.obj [], r2)
           | r2 => (parseFields fuel r2).map (fun p => (Json.obj p.1, p.2)))
      | cs2 => parseNumber cs2

/-- Comma-separated array elements up to the closing bracket. -/
def parseElems : Nat → List Char → Except String (List Json × List Char)
  | 0, _ => .error "value nesting exceeds parser fuel"
  | fuel + 1, cs => do
      let p ← parseValue fuel cs
      match skipWs p.2 with
      | ',' :: r2 => (parseElems fuel r2).map (fun q => (p.1 :: q.1, q.2))
      | ']' :: r2 => .ok ([p.1], r2)
      | _ => .error "invalid character after array element"

/-- Comma-separated object members up to the closing brace. -/
def parseFields : Nat → List Char → Except String (List (String × Json) × List Char)
  | 0, _ => .error "value nesting exceeds parser fuel"
  | fuel + 1, cs =>
      match skipWs cs with
      | '"' :: rest => do
          let k ← parseStringBody rest
          match skipWs k.2 with
          | ':' :: r2 => do
              let v ← parseValue fuel r2
              match skipWs v.2 with
              | ',' :: r4 => (parseFields fuel r4).map (fun q => ((String.mk k.1, v.1) :: q.1, q.2))
              | '}' :: r4 => .ok ([(String.mk k.1, v.1)], r4)
              | _ => .error "invalid character after object member"
          | _ => .error "expected colon after object key"
      | _ => .error "expected object key"

end

/-- json.Decoder.Decode on a body: read one JSON value, ignoring anything
after it. The fuel is generous for the length of the input, so well-formed
inputs never exhaust it. -/
def parseJson (s : String) : Except String Json :=
  (parseValue (2 * s.length + 2) s.data).map (fun p => p.1)

/-- Lower bound of the int64 range. -/
def int64Min : Int := -9223372036854775808

/-- Upper bound of the int64 range. -/
def int64Max : Int := 9223372036854775807

/-- An integer representable as a Go int64. -/
def int64Range (n : Int) : Prop := int64Min ≤ n ∧ n ≤ int64Max

instance (n : Int) : Decidable (int64Range n) := by
  unfold int64Range; infer_instance

/-- Decoding a JSON value into an int64 struct field: a null leaves the
field unchanged, a number literal is parsed exactly by strconv.ParseInt
(no floating-point intermediate, failing on fractions, exponents and
out-of-range values), anything else is a type error. -/
def decodeInt64 (old : Int) : Json → Except String Int
  | .null => .ok old
  | .num lit =>
      match parseIntLit lit with
      | some n =>
          if n < int64Min ∨ int64Max < n then .error ("number " ++ lit ++ " overflows int64")
          else .ok n
      | none => .error ("cannot unmarshal number " ++ lit ++ " into value of type int64")
  | _ => .error "cannot unmarshal value into value of type int64"

/-- Decoding a JSON value into a string struct field. -/
def decodeString (old : String) : Json → Except String String
  | .null => .ok old
  | .str s => .ok s
  | _ => .error "cannot unmarshal value into value of type string"

/-- Decoding a JSON value into a bool struct field. -/
def decodeBool (old : Bool) : Json → Except String Bool
  | .null => .ok old
  | .bool b => .ok b
  | _ => .error "cannot unmarshal value into value of type bool"

/-- Decoding a JSON value into an interface-typed slot under UseNumber:
null stores nil, any other value is stored as decoded (numbers keep their
literal text as json.Number). -/
def decodeIfaceSlot : Json → Option Json
  | .null => none
  | v => some v

/-- Decoding a JSON value into a slice: null resets the slice to nil, an
array appends one freshly decoded element per entry, anything else is a
type error. -/
def decodeListWith (elem : Json → Except String α) : Json → Except String (List α)
  | .null => .ok []
  | .arr xs => xs.mapM elem
  | _ => .error "cannot unmarshal value into value of type slice"

/-- Key matching for struct decoding: encoding/json prefers an exact match
with the field tag and also accepts a case-insensitive match. No two tags
in scope collide case-insensitively, so a single combined test is exact. -/
def keyEq (key tag : String) : Bool :=
  key = tag || key.data.map Char.toLower = tag.data.map Char.toLower

/-- Go struct UserAccount with its zero value as defaults. -/
structure UserAccount where
  userId : Int := 0
  accountId : Int := 0
  name : String := ""
  ownerUserId : Int := 0
  accountStatus : String := ""
  role : String := ""
  userAccountStatus : String := ""
deriving DecidableEq, Inhabited

/-- One object member decoded into a UserAccount, by json field tag. -/
def decodeUserAccountField (acc : UserAccount) (kv : String × Json) : Except String UserAccount :=
  if keyEq kv.1 "UserID" then (decodeInt64 acc.userId kv.2).map (fun v => { acc with userId := v })
  else if keyEq kv.1 "AccountID" then (decodeInt64 acc.accountId kv.2).map (fun v => { acc with accountId := v })
  else if keyEq kv.1 "Name" then (decodeString acc.name kv.2).map (fun v => { acc with name := v })
  else if keyEq kv.1 "OwnerUserID" then (decodeInt64 acc.ownerUserId kv.2).map (fun v => { acc with ownerUserId := v })
  else if keyEq kv.1 "AccountStatus" then (decodeString acc.accountStatus kv.2).map (fun v => { acc with accountStatus := v })
  else if keyEq kv.1 "Role" then (decodeString acc.role kv.2).map (fun v => { acc with role := v })
  else if keyEq kv.1 "UserAccountStatus" then (decodeString acc.userAccountStatus kv.2).map (fun v => { acc with userAccountStatus := v })
  else .ok acc

/-- Decoding a JSON value into an existing UserAccount value. -/
def decodeUserAccountInto (old : UserAccount) : Json → Except String UserAccount
  | .null => .ok old
  | .obj fields => fields.foldlM decodeUserAccountField old
  | _ => .error "cannot unmarshal value into value of type UserAccount"

/-- Decoding a JSON value into a fresh UserAccount. -/
def decodeUserAccount (j : Json) : Except String UserAccount :=
  decodeUserAccountInto {} j

/-- Go struct CloudProvider with its zero value as defaults. -/
structure CloudProvider where
  id : Int := 0
  name : String := ""
  rootAccountId : String := ""
deriving DecidableEq, Inhabited

/-- One object member decoded into a CloudProvider, by json field tag. -/
def decodeCloudProviderField (acc : CloudProvider) (kv : String × Json) : Except String CloudProvider :=
  if keyEq kv.1 "ID" then (decodeInt64 acc.id kv.2).map (fun v => { acc with id := v })
  else if keyEq kv.1 "Name" then (decodeString acc.name kv.2).map (fun v => { acc with name := v })
  else if keyEq kv.1 "RootAccountID" then (decodeString acc.rootAccountId kv.2).map (fun v => { acc with rootAccountId := v })
  else .ok acc

/-- Decoding a JSON value into an existing CloudProvider value. -/
def decodeCloudProviderInto (old : CloudProvider) : Json → Except String CloudProvider
  | .null => .ok old
  | .obj fields => fields.foldlM decodeCloudProviderField old
  | _ => .error "cannot unmarshal value into value of type CloudProvider"

/-- Decoding a JSON value into a slice of CloudProvider. -/
def decodeCloudProviderList : Json → Except String (List CloudProvider) :=
  decodeListWith (fun j => decodeCloudProviderInto {} j)

/-- Go struct CloudProviderRegion with its zero value as defaults. -/
structure CloudProviderRegion where
  id : Int := 0
  cloudProviderId : Int := 0
  name : String := ""
  fullName : String := ""
  externalId : String := ""
  multiRegionExternalId : String := ""
  dcName : String := ""
  backupStorageGbCost : String := ""
  trafficSameRegionInGbCost : String := ""
  trafficSameRegionOutGbCost : String := ""
  trafficCrossRegionOutGbCost : String := ""
  trafficInternetOutGbCost : String := ""
  continent : String := ""
deriving DecidableEq, Inhabited

/-- One object member decoded into a CloudProviderRegion, by json field tag. -/
def decodeCloudProviderRegionField (acc : CloudProviderRegion) (kv : String × Json) : Except String CloudProviderRegion :=
  if keyEq kv.1 "ID" then (decodeInt64 acc.id kv.2).map (fun v => { acc with id := v })
  else if keyEq kv.1 "CloudProviderID" then (decodeInt64 acc.cloudProviderId kv.2).map (fun v => { acc with cloudProviderId := v })
  else if keyEq kv.1 "Name" then (decodeString acc.name kv.2).map (fun v => { acc with name := v })
  else if keyEq kv.1 "FullName" then (decodeString acc.fullName kv.2).map (fun v => { acc with fullName := v })
  else if keyEq kv.1 "ExternalID" then (decodeString acc.externalId kv.2).map (fun v => { acc with externalId := v })
  else if keyEq kv.1 "MultiRegionExternalID" then (decodeString acc.multiRegionExternalId kv.2).map (fun v => { acc with multiRegionExternalId := v })
  else if keyEq kv.1 "DCName" then (decodeString acc.dcName kv.2).map (fun v => { acc with dcName := v })
  else if keyEq kv.1 "BackupStorageGBCost" then (decodeString acc.backupStorageGbCost kv.2).map (fun v => { acc with backupStorageGbCost := v })
  else if keyEq kv.1 "TrafficSameRegionInGBCost" then (decodeString acc.trafficSameRegionInGbCost kv.2).map (fun v => { acc with trafficSameRegionInGbCost := v })
  else if keyEq kv.1 "TrafficSameRegionOutGBCost" then (decodeString acc.trafficSameRegionOutGbCost kv.2).map (fun v => { acc with trafficSameRegionOutGbCost := v })
  else if keyEq kv.1 "TrafficCrossRegionOutGBCost" then (decodeString acc.trafficCrossRegionOutGbCost kv.2).map (fun v => { acc with trafficCrossRegionOutGbCost := v })
  else if keyEq kv.1 "TrafficInternetOutGBCost" then (decodeString acc.trafficInternetOutGbCost kv.2).map (fun v => { acc with trafficInternetOutGbCost := v })
  else if keyEq kv.1 "Continent" then (decodeString acc.continent kv.2).map (fun v => { acc with continent := v })
  else .ok acc

/-- Decoding a JSON value into an existing CloudProviderRegion value. -/
def decodeCloudProviderRegionInto (old : CloudProviderRegion) : Json → Except String CloudProviderRegion
  | .null => .ok old
  | .obj fields => fields.foldlM decodeCloudProviderRegionField old
  | _ => .error "cannot unmarshal value into value of type CloudProviderRegion"

/-- Decoding a JSON value into a slice of CloudProviderRegion. -/
def decodeCloudProviderRegionList : Json → Except String (List CloudProviderRegion) :=
  decodeListWith (fun j => decodeCloudProviderRegionInto {} j)

/-- Go struct FreeTier with its zero value as defaults. -/
structure FreeTier where
  expirationDate : String := ""
  expirationSeconds : Int := 0
  creationTime : String := ""
deriving DecidableEq, Inhabited

/-- One object member decoded into a FreeTier, by json field tag. -/
def decodeFreeTierField (acc : FreeTier) (kv : String × Json) : Except String FreeTier :=
  if keyEq kv.1 "ExpirationDate" then (decodeString acc.expirationDate kv.2).map (fun v => { acc with expirationDate := v })
  else if keyEq kv.1 "ExpirationSeconds" then (decodeInt64 acc.expirationSeconds kv.2).map (fun v => { acc with expirationSeconds := v })
  else if keyEq kv.1 "CreationTime" then (decodeString acc.creationTime kv.2).map (fun v => { acc with creationTime := v })
  else .ok acc

/-- Decoding a JSON value into an existing FreeTier value. -/
def decodeFreeTierInto (old : FreeTier) : Json → Except String FreeTier
  | .null => .ok old
  | .obj fields => fields.foldlM decodeFreeTierField old
  | _ => .error "cannot unmarshal value into value of type FreeTier"

/-- Go struct DataCenter with its zero value as defaults. -/
structure DataCenter where
  id : Int := 0
  clusterId : Int := 0
  cloudProviderId : Int := 0
  cloudProviderRegionId : Int := 0
  replicationFactor : Int := 0
  ipv4Cidr : String := ""
  accountCloudProviderCredentialId : Int := 0
  status : String := ""
  name : String := ""
  managementNetwork : String := ""
  instanceTypeId : Int := 0
  clientConnection : List String := []
deriving DecidableEq, Inhabited

/-- One object member decoded into a DataCenter, by json field tag. -/
def decodeDataCenterField (acc : DataCenter) (kv : String × Json) : Except String DataCenter :=
  if keyEq kv.1 "ID" then (decodeInt64 acc.id kv.2).map (fun v => { acc with id := v })
  else if keyEq kv.1 "ClusterID" then (decodeInt64 acc.clusterId kv.2).map (fun v => { acc with clusterId := v })
  else if keyEq kv.1 "CloudProviderID" then (decodeInt64 acc.cloudProviderId kv.2).map (fun v => { acc with cloudProviderId := v })
  else if keyEq kv.1 "CloudProviderRegionID" then (decodeInt64 acc.cloudProviderRegionId kv.2).map (fun v => { acc with cloudProviderRegionId := v })
  else if keyEq kv.1 "ReplicationFactor" then (decodeInt64 acc.replicationFactor kv.2).map (fun v => { acc with replicationFactor := v })
  else if keyEq kv.1 "IPv4CIDR" then (decodeString acc.ipv4Cidr kv.2).map (fun v => { acc with ipv4Cidr := v })
  else if keyEq kv.1 "AccountCloudProviderCredentialID" then (decodeInt64 acc.accountCloudProviderCredentialId kv.2).map (fun v => { acc with accountCloudProviderCredentialId := v })
  else if keyEq kv.1 "Status" then (decodeString acc.status kv.2).map (fun v => { acc with status := v })
  else if keyEq kv.1 "Name" then (decodeString acc.name kv.2).map (fun v => { acc with name := v })
  else if keyEq kv.1 "ManagementNetwork" then (decodeString acc.managementNetwork kv.2).map (fun v => { acc with managementNetwork := v })
  else if keyEq kv.1 "InstanceTypeID" then (decodeInt64 acc.instanceTypeId kv.2).map (fun v => { acc with instanceTypeId := v })
  else if keyEq kv.1 "ClientConnection" then (decodeListWith (decodeString "") kv.2).map (fun v => { acc with clientConnection := v })
  else .ok acc

/-- Decoding a JSON value into an existing DataCenter value. -/
def decodeDataCenterInto (old : DataCenter) : Json → Except String DataCenter
  | .null => .ok old
  | .obj fields => fields.foldlM decodeDataCenterField old
  | _ => .error "cannot unmarshal value into value of type DataCenter"

/-- Go struct Cluster with its zero value as defaults. -/
structure Cluster where
  id : Int := 0
  name : String := ""
  clusterNameOnConfigFile : String := ""
  status : String := ""
  cloudProviderId : Int := 0
  replicationFactor : Int := 0
  broadcastType : String := ""
  scyllaVersionId : Int := 0
  scyllaVersion : String := ""
  dc : List DataCenter := []
  grafanaUrl : String := ""
  grafanaRootUrl : String := ""
  backofficeGrafanaUrl : String := ""
  backofficePrometheusUrl : String := ""
  backofficeAlertManagerUrl : String := ""
  freeTier : FreeTier := {}
  encryptionMode : String := ""
  userApiInterface : String := ""
  pricingModel : Int := 0
  maxAllowedCidrRange : Int := 0
  createdAt : String := ""
  dns : Bool := false
  promProxyEnabled : Bool := false
deriving DecidableEq, Inhabited

/-- One object member decoded into a Cluster, by json field tag. -/
def decodeClusterField (acc : Cluster) (kv : String × Json) : Except String Cluster :=
  if keyEq kv.1 "ID" then (decodeInt64 acc.id kv.2).map (fun v => { acc with id := v })
  else if keyEq kv.1 "Name" then (decodeString acc.name kv.2).map (fun v => { acc with name := v })
  else if keyEq kv.1 "ClusterNameOnConfigFile" then (decodeString acc.clusterNameOnConfigFile kv.2).map (fun v => { acc with clusterNameOnConfigFile := v })
  else if keyEq kv.1 "Status" then (decodeString acc.status kv.2).map (fun v => { acc with status := v })
  else if keyEq kv.1 "CloudProviderID" then (decodeInt64 acc.cloudProviderId kv.2).map (fun v => { acc with cloudProviderId := v })
  else if keyEq kv.1 "ReplicationFactor" then (decodeInt64 acc.replicationFactor kv.2).map (fun v => { acc with replicationFactor := v })
  else if keyEq kv.1 "BroadcastType" then (decodeString acc.broadcastType kv.2).map (fun v => { acc with broadcastType := v })
  else if keyEq kv.1 "ScyllaVersionID" then (decodeInt64 acc.scyllaVersionId kv.2).map (fun v => { acc with scyllaVersionId := v })
  else if keyEq kv.1 "ScyllaVersion" then (decodeString acc.scyllaVersion kv.2).map (fun v => { acc with scyllaVersion := v })
  else if keyEq kv.1 "DC" then (decodeListWith (fun j => decodeDataCenterInto {} j) kv.2).map (fun v => { acc with dc := v })
  else if keyEq kv.1 "GrafanaURL" then (decodeString acc.grafanaUrl kv.2).map (fun v => { acc with grafanaUrl := v })
  else if keyEq kv.1 "GrafanaRootURL" then (decodeString acc.grafanaRootUrl kv.2).map (fun v => { acc with grafanaRootUrl := v })
  else if keyEq kv.1 "BackofficeGrafanaURL" then (decodeString acc.backofficeGrafanaUrl kv.2).map (fun v => { acc with backofficeGrafanaUrl := v })
  else if keyEq kv.1 "BackofficePrometheusURL" then (decodeString acc.backofficePrometheusUrl kv.2).map (fun v => { acc with backofficePrometheusUrl := v })
  else if keyEq kv.1 "BackofficeAlertManagerURL" then (decodeString acc.backofficeAlertManagerUrl kv.2).map (fun v => { acc with backofficeAlertManagerUrl := v })
  else if keyEq kv.1 "FreeTier" then (decodeFreeTierInto acc.freeTier kv.2).map (fun v => { acc with freeTier := v })
  else if keyEq kv.1 "EncryptionMode" then (decodeString acc.encryptionMode kv.2).map (fun v => { acc with encryptionMode := v })
  else if keyEq kv.1 "UserAPIInterface" then (decodeString acc.userApiInterface kv.2).map (fun v => { acc with userApiInterface := v })
  else if keyEq kv.1 "PricingModel" then (decodeInt64 acc.pricingModel kv.2).map (fun v => { acc with pricingModel := v })
  else if keyEq kv.1 "MaxAllowedCidrRange" then (decodeInt64 acc.maxAllowedCidrRange kv.2).map (fun v => { acc with maxAllowedCidrRange := v })
  else if keyEq kv.1 "CreatedAt" then (decodeString acc.createdAt kv.2).map (fun v => { acc with createdAt := v })
  else if keyEq kv.1 "DNS" then (decodeBool acc.dns kv.2).map (fun v => { acc with dns := v })
  else if keyEq kv.1 "PromProxyEnabled" then (decodeBool acc.promProxyEnabled kv.2).map (fun v => { acc with promProxyEnabled := v })
  else .ok acc

/-- Decoding a JSON value into an existing Cluster value. -/
def decodeClusterInto (old : Cluster) : Json → Except String Cluster
  | .null => .ok old
  | .obj fields => fields.foldlM decodeClusterField old
  | _ => .error "cannot unmarshal value into value of type Cluster"

/-- The anonymous per-item envelope declared inside ListClusters: a Cluster
value plus an untyped error slot. -/
structure Item where
  value : Cluster := {}
  error : Option Json := none
deriving Inhabited

/-- One object member decoded into an Item, by json field tag. -/
def decodeItemField (acc : Item) (kv : String × Json) : Except String Item :=
  if keyEq kv.1 "Value" then (decodeClusterInto acc.value kv.2).map (fun v => { acc with value := v })
  else if keyEq kv.1 "Error" then .ok { acc with error := decodeIfaceSlot kv.2 }
  else .ok acc

/-- Decoding a JSON value into an existing Item value. -/
def decodeItemInto (old : Item) : Json → Except String Item
  | .null => .ok old
  | .obj fields => fields.foldlM decodeItemField old
  | _ => .error "cannot unmarshal value into value of type Item"

/-- Decoding a JSON value into a slice of Item. -/
def decodeItemList : Json → Except String (List Item) :=
  decodeListWith (fun j => decodeItemInto {} j)

/-- Configuration of a net/http Client as far as the embedding observes it:
the overall request timeout in nanoseconds, 0 meaning no timeout (this is
the zero value a fresh http.Client carries). -/
structure HttpClientCfg where
  timeout : Int := 0
deriving DecidableEq, Inhabited

/-- The zero-value http.Client that Get constructs anew for every call. -/
def freshHttpClient : HttpClientCfg := {}

/-- An outgoing HTTP request as built by the executor. -/
structure HttpRequest where
  method : String
  url : String
  headers : List (String × String)
deriving DecidableEq, Inhabited

/-- Outcome of running one HTTP request: a transport-level failure
(request construction, send, or body read) or a status code together with
the fully read body. -/
inductive HttpResult where
  | failure (msg : String)
  | response (statusCode : Int) (body : String)
deriving DecidableEq, Inhabited

/-- The external HTTP transport: how the world answers a request issued
under a given http.Client configuration. -/
abbrev Net := HttpClientCfg → HttpRequest → HttpResult

/-- The classified errors the client can return. The Go code builds them
as error values; the constructors carry exactly the contextual data each
of those values carries (URL, status code and raw body for a status
failure, the json package message for a decode failure, the decoded
untyped payload for a per-item failure). -/
inductive ApiError where
  | transport (msg : String)
  | status (url : String) (code : Int) (body : String)
  | decode (msg : String)
  | item (payload : Json)

/-- A one-character string holding an apostrophe. -/
def singleQuote : String := String.mk [Char.ofNat 39]

/-- The exact message a status failure renders, from the Sprintf call in
Get: HTTP request to (quoted URL) failed with code (code): (raw body). -/
def statusMessage (url : String) (code : Int) (body : String) : String :=
  "HTTP request to " ++ singleQuote ++ url ++ singleQuote ++ " failed with code " ++ intLit code ++ ": " ++ body

/-- sub occurs verbatim inside s. -/
def containsStr (s sub : String) : Prop := ∃ pre post, s = pre ++ sub ++ post

/-- var DefaultTimeout, in nanoseconds (60 seconds). -/
def DefaultTimeout : Int := 60 * 1000000000

/-- const DefaultEndpoint. -/
def DefaultEndpoint : String := "https://cloud.scylladb.com/api/v0"

/-- Go struct Client: the bearer token, the account id resolved at
construction, the endpoint, the http.Client stored on the struct, the
clock-skew bookkeeping fields (unused by any accessor; the mutex guarding
them is a concurrency primitive with no observable pure content) and the
per-call Timeout value. -/
structure Client where
  token : String
  accountId : Int
  endpoint : String
  httpClient : HttpClientCfg
  timeDeltaDone : Bool
  timeDelta : Int
  Timeout : Int
deriving DecidableEq, Inhabited

/-- The request Get builds for a path: the endpoint joined with the path,
an accept header and a bearer Authorization header. -/
def buildRequest (c : Client) (path : String) : HttpRequest :=
  { method := "GET"
    url := c.endpoint ++ path
    headers := [("accept", "application/json"), ("Authorization", "Bearer " ++ c.token)] }

/-- The decode half of Get on a success-status body: run the json decoder
(UseNumber) and the typed decoding into the destination; either failure is
returned as the json package error. -/
def decodeBody (dec : Json → Except String α) (body : String) : Except ApiError α :=
  match parseJson body with
  | .error msg => .error (.decode msg)
  | .ok j =>
      match dec j with
      | .error msg => .error (.decode msg)
      | .ok v => .ok v

/-- The executor (func (c *Client) Get): build the URL and headers, run
the request on a freshly constructed zero-value http.Client (the method
ignores the http.Client and Timeout stored on c), read the body, fail
with the status message for any status outside 200..299, otherwise decode
the body into the destination. The destination type is passed as the
typed decoder for it. -/
def Get (net : Net) (c : Client) (path : String) (dec : Json → Except String α) : Except ApiError α :=
  match net freshHttpClient (buildRequest c path) with
  | .failure msg => .error (.transport msg)
  | .response code body =>
      if code < 200 ∨ 300 ≤ code then .error (.status (c.endpoint ++ path) code body)
      else decodeBody dec body

/-- The Client value NewClient builds before the bootstrap call runs: the
account id still holds the int64 zero value. -/
def initialClient (endpoint token : String) : Client :=
  { token := token
    accountId := 0
    endpoint := endpoint
    httpClient := {}
    timeDeltaDone := false
    timeDelta := 0
    Timeout := DefaultTimeout }

/-- func (c *Client) findAccountId: fetch the default account and store
its AccountID on the client. -/
def findAccountId (net : Net) (c : Client) : Except ApiError Client :=
  match Get net c "/account/default" decodeUserAccount with
  | .error e => .error e
  | .ok result => .ok { c with accountId := result.accountId }

/-- func NewClient: build the initial client, resolve the account id, and
return either the client and no error or no client and the error, exactly
as the Go pair of a possibly nil pointer and a possibly nil error. -/
def NewClient (net : Net) (endpoint token : String) : Option Client × Option ApiError :=
  match findAccountId net (initialClient endpoint token) with
  | .error e => (none, some e)
  | .ok c => (some c, none)

/-- func (c *Client) ListCloudProviders. -/
def ListCloudProviders (net : Net) (c : Client) : Option (List CloudProvider) × Option ApiError :=
  match Get net c "/deployment/provider" decodeCloudProviderList with
  | .error e => (none, some e)
  | .ok result => (some result, none)

/-- The path ListCloudProviderRegions formats with Sprintf. -/
def regionsPath (providerId : Int) : String :=
  "/deployment/provider/" ++ intLit providerId ++ "/region"

/-- func (c *Client) ListCloudProviderRegions. -/
def ListCloudProviderRegions (net : Net) (c : Client) (providerId : Int) : Option (List CloudProviderRegion) × Option ApiError :=
  match Get net c (regionsPath providerId) decodeCloudProviderRegionList with
  | .error e => (none, some e)
  | .ok result => (some result, none)

/-- The path ListClusters formats with Sprintf from the stored account id. -/
def listClustersPath (c : Client) : String :=
  "/account/" ++ intLit c.accountId ++ "/cluster"

/-- The unwrapping loop of ListClusters: walk the decoded envelopes in
order; the first one whose error slot is non-nil fails the whole call with
that payload, otherwise collect the values in order. -/
def unwrapItems : List Item → Except ApiError (List Cluster)
  | [] => .ok []
  | item :: rest =>
      match item.error with
      | some e => .error (.item e)
      | none => (unwrapItems rest).map (fun cs => item.value :: cs)

/-- func (c *Client) ListClusters: fetch the envelope list for the account
and unwrap it. -/
def ListClusters (net : Net) (c : Client) : Option (List Cluster) × Option ApiError :=
  match Get net c (listClustersPath c) decodeItemList with
  | .error e => (none, some e)
  | .ok result =>
      match unwrapItems result with
      | .error e => (none, some e)
      | .ok clusters => (some clusters, none)

/-- The JSON value json.Marshal writes for a UserAccount: an object with
the fields in declaration order under their tags, integer fields as exact
decimal literals and string fields as JSON strings. -/
def encodeUserAccountJson (u : UserAccount) : Json :=
  Json.obj [("UserID", Json.num (intLit u.userId)),
            ("AccountID", Json.num (intLit u.accountId)),
            ("Name", Json.str u.name),
            ("OwnerUserID", Json.num (intLit u.ownerUserId)),
            ("AccountStatus", Json.str u.accountStatus),
            ("Role", Json.str u.role),
            ("UserAccountStatus", Json.str u.userAccountStatus)]

/-- A transport that answers every request with the same status and body. -/
def constNet (code : Int) (body : String) : Net :=
  fun _ _ => .response code body

/-- A transport that fails every request at the network level. -/
def failNet (msg : String) : Net :=
  fun _ _ => .failure msg

/-! Helper lemmas: the decimal literal round trip is exact, which is what
UseNumber decoding into int64 fields relies on. -/

theorem digitVal_digitChar (d : Nat) (h : d < 10) : digitVal (digitChar d) = d := by
  interval_cases d <;> rfl

theorem isDigit_digitChar (d : Nat) (h : d < 10) : (digitChar d).isDigit = true := by
  interval_cases d <;> rfl

theorem parseNatDigits_append (xs : List Char) (c : Char) :
    parseNatDigits (xs ++ [c]) = 10 * parseNatDigits xs + digitVal c := by
  simp [parseNatDigits, List.foldl_append]

theorem parseNatDigits_natDigitsRev (fuel n : Nat) (h : n < fuel) :
    parseNatDigits (natDigitsRev fuel n).reverse = n := by
  induction fuel generalizing n with
  | zero => omega
  | succ fuel ih =>
      by_cases h0 : n = 0
      · subst h0; simp [natDigitsRev, parseNatDigits]
      · have hdiv : n / 10 < fuel := by
          have hlt : n / 10 < n := Nat.div_lt_self (Nat.pos_of_ne_zero h0) (by norm_num)
          omega
        rw [natDigitsRev, if_neg h0, List.reverse_cons, parseNatDigits_append, ih (n / 10) hdiv,
          digitVal_digitChar _ (Nat.mod_lt n (by norm_num))]
        omega

theorem all_isDigit_natDigitsRev (fuel n : Nat) :
    (natDigitsRev fuel n).all Char.isDigit = true := by
  induction fuel generalizing n with
  | zero => rfl
  | succ fuel ih =>
      rw [natDigitsRev]
      by_cases h0 : n = 0
      · rw [if_pos h0]; rfl
      · rw [if_neg h0]
        simp only [List.all_cons, Bool.and_eq_true]
        exact ⟨isDigit_digitChar _ (Nat.mod_lt n (by norm_num)), ih _⟩

theorem natLit_spec (n : Nat) :
    (natLit n).data ≠ [] ∧ (natLit n).data.all Char.isDigit = true ∧
      parseNatDigits (natLit n).data = n := by
  by_cases h0 : n = 0
  · subst h0; exact ⟨by decide, by decide, by decide⟩
  · unfold natLit
    rw [if_neg h0]
    refine ⟨?_, ?_, parseNatDigits_natDigitsRev (n + 1) n (Nat.lt_succ_self n)⟩
    · show (natDigitsRev (n + 1) n).reverse ≠ []
      rw [natDigitsRev, if_neg h0]
      simp
    · show (natDigitsRev (n + 1) n).reverse.all Char.isDigit = true
      rw [List.all_reverse]
      exact all_isDigit_natDigitsRev _ _

theorem parseIntLit_mk_cons (c : Char) (cs : List Char) :
    parseIntLit (String.mk (c :: cs)) =
      if c = '-' then
        (if cs ≠ [] ∧ cs.all Char.isDigit then some (-(parseNatDigits cs : Int)) else none)
      else
        (if (c :: cs).all Char.isDigit then some ((parseNatDigits (c :: cs) : Int)) else none) := rfl

theorem parseIntLit_neg (s : String) (hne : s.data ≠ []) (hall : s.data.all Char.isDigit = true) :
    parseIntLit ("-" ++ s) = some (-(parseNatDigits s.data : Int)) := by
  have h : parseIntLit ("-" ++ s) =
      if s.data ≠ [] ∧ s.data.all Char.isDigit then some (-(parseNatDigits s.data : Int))
      else none := rfl
  rw [h, if_pos ⟨hne, hall⟩]

theorem parseIntLit_nonneg (s : String) (hne : s.data ≠ []) (hall : s.data.all Char.isDigit = true) :
    parseIntLit s = some ((parseNatDigits s.data : Int)) := by
  obtain ⟨c, cs, hd⟩ : ∃ c cs, s.data = c :: cs := by
    cases h : s.data with
    | nil => exact absurd h hne
    | cons a b => exact ⟨a, b, rfl⟩
  have hs : s = String.mk (c :: cs) := by cases s; exact congrArg String.mk hd
  have hc : c.isDigit = true := by
    rw [hd, List.all_cons, Bool.and_eq_true] at hall
    exact hall.1
  have hcne : ¬ (c = '-') := by
    intro h
    rw [h] at hc
    exact absurd hc (by decide)
  rw [hs, parseIntLit_mk_cons, if_neg hcne, if_pos (by rw [hd] at hall; exact hall), ← hd]

theorem parseIntLit_intLit (n : Int) : parseIntLit (intLit n) = some n := by
  unfold intLit
  by_cases hneg : n < 0
  · rw [if_pos hneg]
    obtain ⟨hne, hall, hval⟩ := natLit_spec n.natAbs
    rw [parseIntLit_neg _ hne hall, hval]
    congr 1
    omega
  · rw [if_neg hneg]
    obtain ⟨hne, hall, hval⟩ := natLit_spec n.toNat
    rw [parseIntLit_nonneg _ hne hall, hval]
    congr 1
    omega

theorem decodeInt64_intLit (old n : Int) (h : int64Range n) :
    decodeInt64 old (Json.num (intLit n)) = .ok n := by
  have hrange : ¬ (n < int64Min ∨ int64Max < n) := by
    unfold int64Range at h
    omega
  simp only [decodeInt64, parseIntLit_intLit, hrange, if_false]

/-! Helper lemmas about the executor and the unwrapping loop. -/

theorem Get_response {α : Type} (net : Net) (c : Client) (path : String)
    (dec : Json → Except String α) (code : Int) (body : String)
    (hnet : net freshHttpClient (buildRequest c path) = .response code body)
    (hcode : 200 ≤ code ∧ code < 300) :
    Get net c path dec = decodeBody dec body := by
  unfold Get
  rw [hnet]
  dsimp only
  rw [if_neg (by omega)]

theorem unwrapItems_all_ok (items : List Item) (h : ∀ it ∈ items, it.error = none) :
    unwrapItems items = .ok (items.map Item.value) := by
  induction items with
  | nil => rfl
  | cons it rest ih =>
      have hh : it.error = none := h it (by simp)
      have ht := ih (fun x hx => h x (List.mem_cons_of_mem _ hx))
      simp [unwrapItems, hh, ht, Except.map]

theorem unwrapItems_prefix_error (pre : List Item) (it : Item) (post : List Item) (e : Json)
    (hpre : ∀ x ∈ pre, x.error = none) (hit : it.error = some e) :
    unwrapItems (pre ++ it :: post) = .error (.item e) := by
  induction pre with
  | nil => simp [unwrapItems, hit]
  | cons p ps ih =>
      have hp : p.error = none := hpre p (by simp)
      have ht := ih (fun x hx => hpre x (List.mem_cons_of_mem _ hx))
      simp [unwrapItems, hp, ht, Except.map]

theorem unwrapItems_exists_error (items : List Item) (h : ∃ it ∈ items, it.error ≠ none) :
    ∃ e, (∃ it ∈ items, it.error = some e) ∧ unwrapItems items = .error (.item e) := by
  induction items with
  | nil => simp at h
  | cons a rest ih =>
      cases ha : a.error with
      | some e => exact ⟨e, ⟨a, by simp, ha⟩, by simp [unwrapItems, ha]⟩
      | none =>
          have h2 : ∃ it ∈ rest, it.error ≠ none := by
            rcases h with ⟨it, hmem, hne⟩
            rcases List.mem_cons.mp hmem with h1 | h1
            · subst h1; exact absurd ha hne
            · exact ⟨it, h1, hne⟩
          rcases ih h2 with ⟨e, ⟨it, hmem, heq⟩, hunwrap⟩
          exact ⟨e, ⟨it, by simp [hmem], heq⟩, by simp [unwrapItems, ha, hunwrap, Except.map]⟩

/-- C1: for every cluster-listing response whose decoded sequence contains
at least one envelope with a non-empty error slot, ListClusters fails the
whole call with an Item error carrying the error content of one of those
envelopes, and returns no cluster values at all (the value component of
the returned pair is nil, never a partial list). -/
theorem listClusters_item_error_aborts (net : Net) (c : Client) (code : Int)
    (body : String) (items : List Item)
    (hnet : net freshHttpClient (buildRequest c (listClustersPath c)) = .response code body)
    (hcode : 200 ≤ code ∧ code < 300)
    (hdec : decodeBody decodeItemList body = .ok items)
    (herr : ∃ it ∈ items, it.error ≠ none) :
    ∃ e, (∃ it ∈ items, it.error = some e) ∧
      ListClusters net c = (none, some (.item e)) := by
  have hget : Get net c (listClustersPath c) decodeItemList = .ok items := by
    rw [Get_response net c _ _ code body hnet hcode, hdec]
  rcases unwrapItems_exists_error items herr with ⟨e, he, hu⟩
  exact ⟨e, he, by simp only [ListClusters, hget, hu]⟩

/-- Witness for C1: a three-envelope response whose second envelope has a
non-empty error slot makes ListClusters fail with that error payload and
return nil clusters. -/
theorem listClusters_item_error_aborts_witness :
    ∃ e, (∃ it ∈ ([⟨{}, none⟩, ⟨{}, some (Json.str "boom")⟩, ⟨{}, none⟩] : List Item),
        it.error = some e) ∧
      ListClusters (constNet 200 "[\x7b\x7d,\x7b\"Error\":\"boom\"\x7d,\x7b\x7d]")
        (initialClient "https://e" "t") = (none, some (.item e)) :=
  listClusters_item_error_aborts (constNet 200 "[\x7b\x7d,\x7b\"Error\":\"boom\"\x7d,\x7b\x7d]")
    (initialClient "https://e" "t") 200 "[\x7b\x7d,\x7b\"Error\":\"boom\"\x7d,\x7b\x7d]"
    [⟨{}, none⟩, ⟨{}, some (Json.str "boom")⟩, ⟨{}, none⟩]
    rfl (by decide) rfl
    ⟨⟨{}, some (Json.str "boom")⟩, by simp, by simp⟩

/-- C2: for every HTTP status outside the interval from 200 inclusive to
300 exclusive, Get fails with a Status error whose rendered message
contains the request URL, the exact status code and the raw body verbatim;
for every status inside the interval the call proceeds to decoding. -/
theorem get_status_boundary {α : Type} (net : Net) (c : Client) (path : String)
    (dec : Json → Except String α) (code : Int) (body : String)
    (hnet : net freshHttpClient (buildRequest c path) = .response code body) :
    (¬ (200 ≤ code ∧ code < 300) →
      Get net c path dec = .error (.status (c.endpoint ++ path) code body) ∧
      containsStr (statusMessage (c.endpoint ++ path) code body) (c.endpoint ++ path) ∧
      containsStr (statusMessage (c.endpoint ++ path) code body) (intLit code) ∧
      containsStr (statusMessage (c.endpoint ++ path) code body) body) ∧
    ((200 ≤ code ∧ code < 300) → Get net c path dec = decodeBody dec body) := by
  constructor
  · intro h
    refine ⟨?_, ?_, ?_, ?_⟩
    · unfold Get
      rw [hnet]
      dsimp only
      rw [if_pos (by omega)]
    · exact ⟨"HTTP request to " ++ singleQuote,
        singleQuote ++ " failed with code " ++ intLit code ++ ": " ++ body,
        by simp [statusMessage, String.append_assoc]⟩
    · exact ⟨"HTTP request to " ++ singleQuote ++ (c.endpoint ++ path) ++ singleQuote
          ++ " failed with code ", ": " ++ body,
        by simp [statusMessage, String.append_assoc]⟩
    · exact ⟨"HTTP request to " ++ singleQuote ++ (c.endpoint ++ path) ++ singleQuote
          ++ " failed with code " ++ intLit code ++ ": ", "",
        by simp [statusMessage, String.append_assoc, String.append_empty]⟩
  · intro h
    exact Get_response net c path dec code body hnet h

/-- Witness for C2: a 404 answer yields the status error with its message
pieces, and a 204 answer proceeds to decoding. -/
theorem get_status_boundary_witness :
    (Get (constNet 404 "not found") (initialClient "https://e" "t") "/x" decodeUserAccount =
        .error (.status ((initialClient "https://e" "t").endpoint ++ "/x") 404 "not found") ∧
      containsStr (statusMessage ((initialClient "https://e" "t").endpoint ++ "/x") 404 "not found")
        ((initialClient "https://e" "t").endpoint ++ "/x") ∧
      containsStr (statusMessage ((initialClient "https://e" "t").endpoint ++ "/x") 404 "not found")
        (intLit 404) ∧
      containsStr (statusMessage ((initialClient "https://e" "t").endpoint ++ "/x") 404 "not found")
        "not found") ∧
    (Get (constNet 204 "x") (initialClient "https://e" "t") "/x" decodeUserAccount =
      decodeBody decodeUserAccount "x") :=
  ⟨(get_status_boundary (constNet 404 "not found") (initialClient "https://e" "t") "/x"
      decodeUserAccount 404 "not found" rfl).1 (by decide),
   (get_status_boundary (constNet 204 "x") (initialClient "https://e" "t") "/x"
      decodeUserAccount 204 "x" rfl).2 (by decide)⟩

/-- C3 (divergence witness): Get constructs a fresh zero-value http.Client
for every call, so its behaviour is unchanged when the http.Client and the
Timeout stored on the client record are replaced by anything, and the
client it actually runs on has no timeout set. -/
theorem get_uses_fresh_default_httpClient {α : Type} (net : Net) (c : Client)
    (cfg : HttpClientCfg) (t : Int) (path : String) (dec : Json → Except String α) :
    Get net { c with httpClient := cfg, Timeout := t } path dec = Get net c path dec ∧
    freshHttpClient.timeout = 0 :=
  ⟨rfl, rfl⟩

/-- C4: for every cluster-listing response in which all envelopes have an
empty error slot, ListClusters succeeds with the unwrapped values in the
same order, hence also with the same length. -/
theorem listClusters_all_ok_preserves (net : Net) (c : Client) (code : Int)
    (body : String) (items : List Item)
    (hnet : net freshHttpClient (buildRequest c (listClustersPath c)) = .response code body)
    (hcode : 200 ≤ code ∧ code < 300)
    (hdec : decodeBody decodeItemList body = .ok items)
    (hall : ∀ it ∈ items, it.error = none) :
    ListClusters net c = (some (items.map Item.value), none) ∧
    (items.map Item.value).length = items.length := by
  have hget : Get net c (listClustersPath c) decodeItemList = .ok items := by
    rw [Get_response net c _ _ code body hnet hcode, hdec]
  exact ⟨by simp only [ListClusters, hget, unwrapItems_all_ok items hall], by simp⟩

/-- Witness for C4: a two-envelope response with empty error slots yields
exactly the two wrapped clusters, in order. -/
theorem listClusters_all_ok_preserves_witness :
    ListClusters (constNet 200 "[\x7b\"Value\":\x7b\"ID\":7\x7d\x7d,\x7b\x7d]")
        (initialClient "https://e" "t") =
      (some (([⟨{ id := 7 }, none⟩, ⟨{}, none⟩] : List Item).map Item.value), none) ∧
    (([⟨{ id := 7 }, none⟩, ⟨{}, none⟩] : List Item).map Item.value).length =
      ([⟨{ id := 7 }, none⟩, ⟨{}, none⟩] : List Item).length :=
  listClusters_all_ok_preserves (constNet 200 "[\x7b\"Value\":\x7b\"ID\":7\x7d\x7d,\x7b\x7d]")
    (initialClient "https://e" "t") 200 "[\x7b\"Value\":\x7b\"ID\":7\x7d\x7d,\x7b\x7d]"
    [⟨{ id := 7 }, none⟩, ⟨{}, none⟩] rfl (by decide) rfl
    (by intro it hit
        rcases List.mem_cons.mp hit with h | h
        · subst h; rfl
        · rcases List.mem_cons.mp h with h2 | h2
          · subst h2; rfl
          · simp at h2)

/-- C5: if the identity-bootstrap call fails for any reason during client
construction, NewClient returns no client together with that error, and
the bootstrap request path is the fixed default-account path, built
without any use of an account identifier. -/
theorem newClient_bootstrap_failure (net : Net) (endpoint token : String) (e : ApiError)
    (h : Get net (initialClient endpoint token) "/account/default" decodeUserAccount = .error e) :
    NewClient net endpoint token = (none, some e) ∧
    (buildRequest (initialClient endpoint token) "/account/default").url =
      endpoint ++ "/account/default" := by
  constructor
  · simp only [NewClient, findAccountId, h]
  · rfl

/-- Witness for C5: a 500 answer on the bootstrap call yields no client
and the status error. -/
theorem newClient_bootstrap_failure_witness :
    NewClient (constNet 500 "oops") "https://e" "t" =
      (none, some (ApiError.status "https://e/account/default" 500 "oops")) ∧
    (buildRequest (initialClient "https://e" "t") "/account/default").url =
      "https://e" ++ "/account/default" :=
  newClient_bootstrap_failure (constNet 500 "oops") "https://e" "t"
    (ApiError.status "https://e/account/default" 500 "oops") (by rfl)

/-- C6: a client successfully constructed against a default-account
response carrying account id N stores N, and the cluster-listing request
it would issue targets the path account slash N slash cluster relative to
the configured endpoint. -/
theorem newClient_accountId_cluster_path (net : Net) (endpoint token : String)
    (code : Int) (body : String) (ua : UserAccount) (N : Int)
    (hnet : net freshHttpClient (buildRequest (initialClient endpoint token) "/account/default") =
      .response code body)
    (hcode : 200 ≤ code ∧ code < 300)
    (hdec : decodeBody decodeUserAccount body = .ok ua)
    (hN : ua.accountId = N) :
    ∃ c, NewClient net endpoint token = (some c, none) ∧ c.accountId = N ∧
      (buildRequest c (listClustersPath c)).url =
        endpoint ++ "/account/" ++ intLit N ++ "/cluster" := by
  have hget : Get net (initialClient endpoint token) "/account/default" decodeUserAccount =
      .ok ua := by
    rw [Get_response net (initialClient endpoint token) _ _ code body hnet hcode, hdec]
  refine ⟨{ initialClient endpoint token with accountId := ua.accountId }, ?_, hN, ?_⟩
  · simp only [NewClient, findAccountId, hget]
  · subst hN
    simp [buildRequest, listClustersPath, initialClient, String.append_assoc]

/-- Witness for C6: bootstrapping against a response with AccountID 42
makes the cluster-listing URL end in account 42 cluster. -/
theorem newClient_accountId_cluster_path_witness :
    ∃ c, NewClient (constNet 200 "\x7b\"AccountID\":42\x7d") "https://e" "t" = (some c, none) ∧
      c.accountId = 42 ∧
      (buildRequest c (listClustersPath c)).url =
        "https://e" ++ "/account/" ++ intLit 42 ++ "/cluster" :=
  newClient_accountId_cluster_path (constNet 200 "\x7b\"AccountID\":42\x7d") "https://e" "t"
    200 "\x7b\"AccountID\":42\x7d" { accountId := 42 } 42 rfl (by decide) (by rfl) rfl

/-- C7: decoding preserves every field exactly, including int64 fields
whose values are parsed from their decimal literals with no floating-point
intermediate, so decoding the marshalled form of any UserAccount whose
numeric fields are in the int64 range gives back exactly that value, and
re-encoding the decoded value reproduces the original payload. -/
theorem userAccount_decode_roundtrip (u : UserAccount)
    (h1 : int64Range u.userId) (h2 : int64Range u.accountId) (h3 : int64Range u.ownerUserId) :
    decodeUserAccount (encodeUserAccountJson u) = .ok u ∧
    (decodeUserAccount (encodeUserAccountJson u)).map encodeUserAccountJson =
      .ok (encodeUserAccountJson u) := by
  have hd : decodeUserAccount (encodeUserAccountJson u) = .ok u := by
    obtain ⟨a, b, nm, d, st, rl, us⟩ := u
    simp only at h1 h2 h3
    simp only [decodeUserAccount, encodeUserAccountJson, decodeUserAccountInto, List.foldlM,
      decodeUserAccountField]
    simp +decide [keyEq, decodeString, decodeInt64_intLit _ _ h1, decodeInt64_intLit _ _ h2,
      decodeInt64_intLit _ _ h3]
    rfl
  exact ⟨hd, by rw [hd]; rfl⟩

/-- Witness for C7: a UserAccount whose ids include the largest int64, a
value just above the double-precision-exact range, and a negative id
round-trips exactly. -/
theorem userAccount_decode_roundtrip_witness :
    decodeUserAccount (encodeUserAccountJson
      { userId := 9223372036854775807, accountId := 9007199254740993, name := "alice",
        ownerUserId := -42, accountStatus := "ACTIVE", role := "ADMIN",
        userAccountStatus := "OK" }) =
      .ok { userId := 9223372036854775807, accountId := 9007199254740993, name := "alice",
            ownerUserId := -42, accountStatus := "ACTIVE", role := "ADMIN",
            userAccountStatus := "OK" } ∧
    (decodeUserAccount (encodeUserAccountJson
      { userId := 9223372036854775807, accountId := 9007199254740993, name := "alice",
        ownerUserId := -42, accountStatus := "ACTIVE", role := "ADMIN",
        userAccountStatus := "OK" })).map encodeUserAccountJson =
      .ok (encodeUserAccountJson
        { userId := 9223372036854775807, accountId := 9007199254740993, name := "alice",
          ownerUserId := -42, accountStatus := "ACTIVE", role := "ADMIN",
          userAccountStatus := "OK" }) :=
  userAccount_decode_roundtrip
    { userId := 9223372036854775807, accountId := 9007199254740993, name := "alice",
      ownerUserId := -42, accountStatus := "ACTIVE", role := "ADMIN", userAccountStatus := "OK" }
    (by decide) (by decide) (by decide)

/-- C8: a success-status response whose body does not parse makes every
accessor fail with a Decode error, and a Decode error is never equal to a
Status error, so the two failure kinds are distinguishable by the caller
(in the Go code they are distinct dynamic error types: the json package
errors versus the errors.New status string). -/
theorem accessor_decode_error_distinct (net : Net) (c : Client) (providerId : Int)
    (code : Int) (body msg : String)
    (hnet : ∀ cfg req, net cfg req = .response code body)
    (hcode : 200 ≤ code ∧ code < 300)
    (hbody : parseJson body = .error msg) :
    ListCloudProviders net c = (none, some (.decode msg)) ∧
    ListCloudProviderRegions net c providerId = (none, some (.decode msg)) ∧
    ListClusters net c = (none, some (.decode msg)) ∧
    (∀ u cd b m, ApiError.decode m ≠ ApiError.status u cd b) := by
  have hG : ∀ {α : Type} (path : String) (dec : Json → Except String α),
      Get net c path dec = .error (.decode msg) := by
    intro α path dec
    rw [Get_response net c path dec code body (hnet _ _) hcode]
    unfold decodeBody
    rw [hbody]
  refine ⟨?_, ?_, ?_, ?_⟩
  · simp only [ListCloudProviders, hG]
  · simp only [ListCloudProviderRegions, hG]
  · simp only [ListClusters, hG]
  · intro u cd b m h
    exact ApiError.noConfusion h

/-- Witness for C8: a 200 answer with a non-JSON body makes all three
accessors fail with the same Decode error. -/
theorem accessor_decode_error_distinct_witness :
    ListCloudProviders (constNet 200 "oops") (initialClient "https://e" "t") =
      (none, some (.decode "invalid character looking for beginning of value")) ∧
    ListCloudProviderRegions (constNet 200 "oops") (initialClient "https://e" "t") 3 =
      (none, some (.decode "invalid character looking for beginning of value")) ∧
    ListClusters (constNet 200 "oops") (initialClient "https://e" "t") =
      (none, some (.decode "invalid character looking for beginning of value")) ∧
    (∀ u cd b m, ApiError.decode m ≠ ApiError.status u cd b) :=
  accessor_decode_error_distinct (constNet 200 "oops") (initialClient "https://e" "t") 3
    200 "oops" "invalid character looking for beginning of value"
    (fun _ _ => rfl) (by decide) (by rfl)

/-- C9: when two or more envelopes carry errors, ListClusters surfaces the
error content of the lowest-index one: with a clean prefix, an erroring
envelope, and a tail containing further errors, the result is the Item
error of the first erroring envelope. -/
theorem listClusters_first_error_wins (net : Net) (c : Client) (code : Int) (body : String)
    (pre : List Item) (it1 : Item) (post : List Item) (e1 : Json)
    (hnet : net freshHttpClient (buildRequest c (listClustersPath c)) = .response code body)
    (hcode : 200 ≤ code ∧ code < 300)
    (hdec : decodeBody decodeItemList body = .ok (pre ++ it1 :: post))
    (hpre : ∀ x ∈ pre, x.error = none)
    (h1 : it1.error = some e1)
    (h2 : ∃ it2 ∈ post, it2.error ≠ none) :
    ListClusters net c = (none, some (.item e1)) := by
  have hget : Get net c (listClustersPath c) decodeItemList = .ok (pre ++ it1 :: post) := by
    rw [Get_response net c _ _ code body hnet hcode, hdec]
  have hu := unwrapItems_prefix_error pre it1 post e1 hpre h1
  simp only [ListClusters, hget, hu]

/-- Witness for C9: with errors in envelopes two and three, the reported
payload is the one from envelope two. -/
theorem listClusters_first_error_wins_witness :
    ListClusters (constNet 200 "[\x7b\x7d,\x7b\"Error\":\"boom\"\x7d,\x7b\"Error\":\"bam\"\x7d]")
      (initialClient "https://e" "t") = (none, some (.item (Json.str "boom"))) :=
  listClusters_first_error_wins
    (constNet 200 "[\x7b\x7d,\x7b\"Error\":\"boom\"\x7d,\x7b\"Error\":\"bam\"\x7d]")
    (initialClient "https://e" "t") 200
    "[\x7b\x7d,\x7b\"Error\":\"boom\"\x7d,\x7b\"Error\":\"bam\"\x7d]"
    [⟨{}, none⟩] ⟨{}, some (Json.str "boom")⟩ [⟨{}, some (Json.str "bam")⟩] (Json.str "boom")
    rfl (by decide) (by rfl)
    (by intro x hx
        rcases List.mem_cons.mp hx with h | h
        · subst h; rfl
        · simp at h)
    rfl
    ⟨⟨{}, some (Json.str "bam")⟩, by simp, by simp⟩

/-- C10: whenever NewClient or any accessor returns a non-nil error, its
value result is nil; a caller never receives both a value and an error
from the same call. -/
theorem accessor_error_implies_nil_value (net : Net) (c : Client) (providerId : Int)
    (endpoint token : String) :
    (∀ e, (ListCloudProviders net c).2 = some e → (ListCloudProviders net c).1 = none) ∧
    (∀ e, (ListCloudProviderRegions net c providerId).2 = some e →
      (ListCloudProviderRegions net c providerId).1 = none) ∧
    (∀ e, (ListClusters net c).2 = some e → (ListClusters net c).1 = none) ∧
    (∀ e, (NewClient net endpoint token).2 = some e → (NewClient net endpoint token).1 = none) := by
  refine ⟨?_, ?_, ?_, ?_⟩
  · intro e h
    cases hG : Get net c "/deployment/provider" decodeCloudProviderList with
    | error e2 => simp [ListCloudProviders, hG]
    | ok v => simp [ListCloudProviders, hG] at h
  · intro e h
    cases hG : Get net c (regionsPath providerId) decodeCloudProviderRegionList with
    | error e2 => simp [ListCloudProviderRegions, hG]
    | ok v => simp [ListCloudProviderRegions, hG] at h
  · intro e h
    cases hG : Get net c (listClustersPath c) decodeItemList with
    | error e2 => simp [ListClusters, hG]
    | ok v =>
        cases hu : unwrapItems v with
        | error e2 => simp [ListClusters, hG, hu]
        | ok cl => simp [ListClusters, hG, hu] at h
  · intro e h
    cases hF : findAccountId net (initialClient endpoint token) with
    | error e2 => simp [NewClient, hF]
    | ok c2 => simp [NewClient, hF] at h

/-- Witness for C10: under a transport that fails every request, all four
calls return a nil value. -/
theorem accessor_error_implies_nil_value_witness :
    (ListCloudProviders (failNet "down") (initialClient "https://e" "t")).1 = none ∧
    (ListCloudProviderRegions (failNet "down") (initialClient "https://e" "t") 7).1 = none ∧
    (ListClusters (failNet "down") (initialClient "https://e" "t")).1 = none ∧
    (NewClient (failNet "down") "https://e" "t").1 = none :=
  ⟨(accessor_error_implies_nil_value (failNet "down") (initialClient "https://e" "t") 7
      "https://e" "t").1 (.transport "down") rfl,
   (accessor_error_implies_nil_value (failNet "down") (initialClient "https://e" "t") 7
      "https://e" "t").2.1 (.transport "down") rfl,
   (accessor_error_implies_nil_value (failNet "down") (initialClient "https://e" "t") 7
      "https://e" "t").2.2.1 (.transport "down") rfl,
   (accessor_error_implies_nil_value (failNet "down") (initialClient "https://e" "t") 7
      "https://e" "t").2.2.2 (.transport "down") rfl⟩
